import Mathlib

/-!
Verification of the specification of the `sgangoly/qiskit-community-tutorials`
repository (two Jupyter notebooks under `src/chemistry/`) against the
notebooks themselves.

The repository contains no original algorithmic code: both notebooks are
linear sequences of calls into the external Qiskit Aqua / Chemistry library,
and every numerical result the spec talks about is recorded verbatim in the
notebooks as saved cell output.  The shallow embedding therefore has two
layers:

* the recorded cell outputs of the two notebooks (Pauli-term tables, exact
  ground-state energies, VQE energies, the particle-hole energy shift), read
  off the source `.ipynb` files as exact rational numbers;
* a model, written from the spec, of the external library operations the
  notebooks invoke (qubit mapping, particle-hole transformation) and of the
  straight-line, handler-free control flow of the notebook cells.
-/

/-! ## Recorded outputs of src/chemistry/QubitMappings.ipynb -/

namespace QubitMappingsNB

/-- Recorded output of the qubit-operator printing cell of
`src/chemistry/QubitMappings.ipynb`: the Pauli terms of `qubitOp_jw`
(Jordan-Wigner mapping, threshold `0.00000001`) as printed by
`print_operators()` after `to_matrix()` and `chop(10**-10)`.
All imaginary parts in the printout are `0j` and are omitted. -/
def jwTerms : List (String × ℚ) :=
  [ ("IIII", -0.8105479862760991)
  , ("IIIZ", 0.17218394273085635)
  , ("IIZI", -0.22575350251540605)
  , ("IIZZ", 0.12091263358559995)
  , ("IZII", 0.17218394273085635)
  , ("IZIZ", 0.16892754048859007)
  , ("IZZI", 0.16614543338049342)
  , ("IZZZ", -8.326672684688674e-17)
  , ("XXXX", 0.045232799794893426)
  , ("XXYY", 0.045232799794893426)
  , ("YYXX", 0.045232799794893426)
  , ("YYYY", 0.045232799794893426)
  , ("ZIII", -0.2257535025154061)
  , ("ZIIZ", 0.16614543338049342)
  , ("ZIZI", 0.17464343142442207)
  , ("ZZII", 0.12091263358559991)
  , ("ZZIZ", -2.42861286636753e-17)
  , ("ZZZI", -6.938893903907228e-17)
  , ("ZZZZ", -3.122502256758253e-17) ]

/-- Recorded Pauli terms of `qubitOp_pa` (parity mapping) printed by the same
cell of `src/chemistry/QubitMappings.ipynb`. -/
def paTerms : List (String × ℚ) :=
  [ ("IIII", -0.8105479862760991)
  , ("IIIZ", 0.17218394273085635)
  , ("IIZI", 0.1209126335855999)
  , ("IIZZ", -0.2257535025154061)
  , ("IXIX", 0.045232799794893426)
  , ("IXZX", -0.045232799794893426)
  , ("IZII", -6.938893903907228e-17)
  , ("IZIZ", 0.16614543338049345)
  , ("IZZI", 0.17218394273085635)
  , ("IZZZ", 0.16892754048859007)
  , ("ZIII", -3.469446951953614e-17)
  , ("ZIIZ", -6.245004513516506e-17)
  , ("ZIZI", 0.1209126335855999)
  , ("ZIZZ", -2.0816681711721685e-17)
  , ("ZXIX", 0.045232799794893426)
  , ("ZXZX", -0.045232799794893426)
  , ("ZZII", -0.2257535025154061)
  , ("ZZIZ", 0.16614543338049342)
  , ("ZZZZ", 0.17464343142442207) ]

/-- Recorded Pauli terms of `qubitOp_bk` (Bravyi-Kitaev mapping) printed by the
same cell of `src/chemistry/QubitMappings.ipynb`. -/
def bkTerms : List (String × ℚ) :=
  [ ("IIII", -0.8105479862760991)
  , ("IIIZ", 0.17218394273085635)
  , ("IIZI", 0.1209126335855999)
  , ("IIZZ", -0.2257535025154061)
  , ("IXIX", 0.045232799794893426)
  , ("IXZX", -0.045232799794893426)
  , ("IZII", 0.17218394273085635)
  , ("IZIZ", 0.16892754048859007)
  , ("IZZI", -6.938893903907228e-17)
  , ("IZZZ", 0.16614543338049345)
  , ("ZIII", -3.469446951953614e-17)
  , ("ZIIZ", -6.245004513516506e-17)
  , ("ZIZI", 0.1209126335855999)
  , ("ZIZZ", -2.0816681711721685e-17)
  , ("ZXIX", 0.045232799794893426)
  , ("ZXZX", -0.045232799794893426)
  , ("ZZIZ", 0.17464343142442207)
  , ("ZZZI", -0.2257535025154061)
  , ("ZZZZ", 0.16614543338049342) ]

/-- Recorded `ExactEigensolver` ground-state energy for the Jordan-Wigner
mapped operator, as printed by `src/chemistry/QubitMappings.ipynb`. -/
def jwExactEnergy : ℚ := -1.8572750766378716

/-- Recorded `ExactEigensolver` ground-state energy for the parity mapped
operator, as printed by `src/chemistry/QubitMappings.ipynb`. -/
def paExactEnergy : ℚ := -1.8572750766378738

/-- Recorded `ExactEigensolver` ground-state energy for the Bravyi-Kitaev
mapped operator, as printed by `src/chemistry/QubitMappings.ipynb`. -/
def bkExactEnergy : ℚ := -1.8572750766378796

/-- Recorded VQE ground-state energy (`results` index `eigvals`, entry 0) for
the Jordan-Wigner operator, from the last code cell of
`src/chemistry/QubitMappings.ipynb`. -/
def jwVQEEnergy : ℚ := -1.8570893208672647

/-- Recorded VQE ground-state energy for the parity operator, from the last
code cell of `src/chemistry/QubitMappings.ipynb`. -/
def paVQEEnergy : ℚ := -1.8572686760592785

/-- Recorded VQE ground-state energy for the Bravyi-Kitaev operator, from the
last code cell of `src/chemistry/QubitMappings.ipynb`. -/
def bkVQEEnergy : ℚ := -1.85727507635405

end QubitMappingsNB

/-! ## Recorded outputs of src/chemistry/ParticleHoleTransformation.ipynb -/

namespace ParticleHoleNB

/-- Recorded `ExactEigensolver` ground-state energy of `qubitOp_jw` (before
the particle-hole transformation), printed by
`src/chemistry/ParticleHoleTransformation.ipynb` as
`The exact ground state energy is`. -/
def exactEnergyBefore : ℚ := -1.8572750302023795

/-- Recorded value of `molecule.hf_energy - molecule.nuclear_repulsion_energy`
printed by `src/chemistry/ParticleHoleTransformation.ipynb` as
`The Hartree Fock Electron Energy is`. -/
def hfElectronEnergy : ℚ := -1.8369679912029842

/-- Recorded scalar `energy_shift` returned by
`ferOp.particle_hole_transformation(num_particles=2)` and printed as
`Energy shift is` in `src/chemistry/ParticleHoleTransformation.ipynb`. -/
def energyShift : ℚ := 1.8369679912029846

/-- Recorded `ExactEigensolver` ground-state energy of `newqubitOp_jw` (after
the particle-hole transformation), printed as
`The exact ground state energy in PH basis is` in
`src/chemistry/ParticleHoleTransformation.ipynb`. -/
def phExactEnergy : ℚ := -0.020307038999396183

/-- Recorded value of `ret` at index `energy` minus `energy_shift`, printed as
`The exact ground state energy in PH basis is ... (with energy_shift)` in
`src/chemistry/ParticleHoleTransformation.ipynb`. -/
def phExactEnergyShifted : ℚ := -1.8572750302023808

/-- Recorded VQE minimum value (`results` index `eigvals`, entry 0, real part)
for `newqubitOp_jw`, printed as the first `Minimum value` line of
`src/chemistry/ParticleHoleTransformation.ipynb`. -/
def phVQEEnergy : ℚ := -0.020307038771711697

/-- Recorded VQE minimum value minus `energy_shift`, printed as the second
`Minimum value` line of `src/chemistry/ParticleHoleTransformation.ipynb`. -/
def phVQEEnergyShifted : ℚ := -1.8572750299746963

end ParticleHoleNB

/-! ## Modelled library operations

The notebooks call `FermionicOperator.mapping`, `particle_hole_transformation`,
the drivers, `ExactEigensolver` and `VQE` from the external Qiskit library;
none of that code is part of this repository, only its call sites are.  The
definitions below model those operations from the spec so that the claims
about determinism, immutability and control flow can be stated. -/

/-- Modelled from the spec: the external library type `FermionicOperator`
(not part of this repository).  Per the spec it is an algebraic
representation over creation/annihilation operators built from the one-body
and two-body molecular integral tensors (`h1`, `h2`). -/
structure FermionicOperator where
  h1 : List (List ℚ)
  h2 : List (List (List (List ℚ)))
deriving DecidableEq

/-- Entry `(i, j)` of the one-body integral tensor, `0` outside the tensor. -/
def ent1 (f : FermionicOperator) (i j : ℕ) : ℚ :=
  (f.h1.getD i []).getD j 0

/-- Entry `(i, j, k, l)` of the two-body integral tensor, `0` outside it. -/
def ent2 (f : FermionicOperator) (i j k l : ℕ) : ℚ :=
  (((f.h2.getD i []).getD j []).getD k []).getD l 0

/-- The three fermion-to-qubit encodings selected by the `map_type` string
argument of `FermionicOperator.mapping` in the notebooks. -/
inductive MapType where
  | jordanWigner
  | parity
  | bravyiKitaev
deriving DecidableEq

/-- Character of a Pauli-string label at position `k`, given the positions
carrying `Z`, `X` and `Y` factors (all other positions are `I`). -/
def pauliChar (zs xs ys : List ℕ) (k : ℕ) : Char :=
  if k ∈ xs then 'X' else if k ∈ ys then 'Y' else if k ∈ zs then 'Z' else 'I'

/-- A Pauli-string label over `n` qubits. -/
def pauliLabel (n : ℕ) (zs xs ys : List ℕ) : String :=
  String.mk ((List.range n).map (pauliChar zs xs ys))

/-- Modelled from the spec: Jordan-Wigner image of the one-body excitation
term with coefficient `c` between spin-orbitals `i` and `j`; occupation terms
become `I`/`Z` combinations and hopping terms become `X`/`Y` pairs with a
`Z` parity chain between them. -/
def jwExcitationTerms (n i j : ℕ) (c : ℚ) : List (String × ℚ) :=
  if i = j then
    [ (pauliLabel n [] [] [], c / 2)
    , (pauliLabel n [i] [] [], -(c / 2)) ]
  else
    let zs := (List.range n).filter fun k => min i j < k ∧ k < max i j
    [ (pauliLabel n zs [i, j] [], c / 2)
    , (pauliLabel n zs [] [i, j], c / 2) ]

/-- Modelled from the spec: parity-encoding image of the one-body excitation
term, storing occupations as cumulative parities, so occupation terms touch
the qubit pair `(i - 1, i)`. -/
def paExcitationTerms (n i j : ℕ) (c : ℚ) : List (String × ℚ) :=
  if i = j then
    let zs := if i = 0 then [0] else [i - 1, i]
    [ (pauliLabel n [] [] [], c / 2)
    , (pauliLabel n zs [] [], -(c / 2)) ]
  else
    let lo := min i j
    let hi := max i j
    let xs := (List.range n).filter fun k => lo ≤ k ∧ k ≤ hi
    let zs := if lo = 0 then [] else [lo - 1]
    [ (pauliLabel n zs xs [], c / 2)
    , (pauliLabel n zs (xs.filter fun k => k ≠ lo) [lo], -(c / 2)) ]

/-- Modelled from the spec: Bravyi-Kitaev image of the one-body excitation
term, with the tree-structured update/parity index sets modelled by a
fixed deterministic rule. -/
def bkExcitationTerms (n i j : ℕ) (c : ℚ) : List (String × ℚ) :=
  if i = j then
    let zs := if i % 2 = 1 then [i - 1, i] else [i]
    [ (pauliLabel n [] [] [], c / 2)
    , (pauliLabel n zs [] [], -(c / 2)) ]
  else
    let lo := min i j
    let hi := max i j
    let zs := (List.range n).filter fun k => lo < k ∧ k < hi ∧ k % 2 = 0
    [ (pauliLabel n zs [lo, hi] [], c / 2)
    , (pauliLabel n zs [] [lo, hi], c / 2) ]

/-- One-body excitation image for a given encoding. -/
def excitationTerms : MapType → ℕ → ℕ → ℕ → ℚ → List (String × ℚ)
  | MapType.jordanWigner => jwExcitationTerms
  | MapType.parity => paExcitationTerms
  | MapType.bravyiKitaev => bkExcitationTerms

/-- All index pairs `(i, j)` with `i, j < n`. -/
def indexPairs (n : ℕ) : List (ℕ × ℕ) :=
  ((List.range n).map fun i => (List.range n).map fun j => (i, j)).flatten

/-- Modelled from the spec: the untruncated Pauli-term list of the qubit
operator obtained from a `FermionicOperator` under a given encoding; the
one-body tensor contributes excitation images and the two-body tensor
contributes density-density `Z`-pair terms. -/
def rawTerms (f : FermionicOperator) (map_type : MapType) : List (String × ℚ) :=
  let n := f.h1.length
  let one := ((indexPairs n).map fun p =>
    excitationTerms map_type n p.1 p.2 (ent1 f p.1 p.2)).flatten
  let two := ((indexPairs n).map fun p =>
    if p.1 < p.2 then
      [ (pauliLabel n [p.1, p.2] [] [], ent2 f p.1 p.1 p.2 p.2 / 4) ]
    else []).flatten
  one ++ two

/-- Drop every Pauli term whose coefficient is smaller in absolute value
than the threshold. -/
def truncateTerms (threshold : ℚ) (ts : List (String × ℚ)) : List (String × ℚ) :=
  ts.filter fun t => threshold ≤ |t.2|

/-- Modelled from the spec: `FermionicOperator.mapping` of the external
library (not part of this repository) — a mapping-specific sum of weighted
Pauli strings, derived deterministically from the fermionic operator and the
mapping choice, truncated by the numeric threshold. -/
def mapping (f : FermionicOperator) (map_type : MapType) (threshold : ℚ) :
    List (String × ℚ) :=
  truncateTerms threshold (rawTerms f map_type)

/-- Modelled from the spec: `FermionicOperator.particle_hole_transformation`
of the external library (not part of this repository) — re-references the
operator relative to the occupation of the first `num_particles`
spin-orbitals and separates out a constant energy shift, returning a new
operator together with that scalar shift. -/
def particle_hole_transformation (f : FermionicOperator) (num_particles : ℕ) :
    FermionicOperator × ℚ :=
  let shift := -(((List.range num_particles).map fun i => ent1 f i i).sum)
  let n := f.h1.length
  let newh1 := (List.range n).map fun i => (List.range n).map fun j =>
    if i < num_particles ∧ j < num_particles then -(ent1 f j i) else ent1 f i j
  ({ h1 := newh1, h2 := f.h2 }, shift)

/-- A small concrete fermionic operator used to instantiate the universally
quantified theorems at a particular input. -/
def sampleFerOp : FermionicOperator :=
  { h1 := [[-1, 1/10], [1/10, -1/2]]
  , h2 := [] }

/-! ## The variable store of the mapping cells

Cell 3 of `src/chemistry/QubitMappings.ipynb` binds `qubitOp_jw`,
`qubitOp_pa` and `qubitOp_bk` by three successive `ferOp.mapping` calls with
threshold `0.00000001`; the particle-hole notebook binds `newferOp` and
`energy_shift` from `ferOp.particle_hole_transformation(num_particles=2)`.
The store of those cells is modelled as a record, one assignment per call. -/

/-- Variable store of the qubit-mapping cell of
`src/chemistry/QubitMappings.ipynb`. -/
structure NotebookState where
  ferOp : FermionicOperator
  qubitOp_jw : List (String × ℚ)
  qubitOp_pa : List (String × ℚ)
  qubitOp_bk : List (String × ℚ)

/-- The assignment `qubitOp_jw = ferOp.mapping(map_type=JORDAN_WIGNER,
threshold=0.00000001)` from `src/chemistry/QubitMappings.ipynb`. -/
def assignJW (s : NotebookState) : NotebookState :=
  { s with qubitOp_jw := mapping s.ferOp MapType.jordanWigner 0.00000001 }

/-- The assignment `qubitOp_pa = ferOp.mapping(map_type=PARITY,
threshold=0.00000001)` from `src/chemistry/QubitMappings.ipynb`. -/
def assignPA (s : NotebookState) : NotebookState :=
  { s with qubitOp_pa := mapping s.ferOp MapType.parity 0.00000001 }

/-- The assignment `qubitOp_bk = ferOp.mapping(map_type=BRAVYI_KITAEV,
threshold=0.00000001)` from `src/chemistry/QubitMappings.ipynb`. -/
def assignBK (s : NotebookState) : NotebookState :=
  { s with qubitOp_bk := mapping s.ferOp MapType.bravyiKitaev 0.00000001 }

/-- Variable store of the particle-hole cell of
`src/chemistry/ParticleHoleTransformation.ipynb`. -/
structure PHState where
  ferOp : FermionicOperator
  newferOp : FermionicOperator
  energy_shift : ℚ

/-- The assignment `newferOp, energy_shift =
ferOp.particle_hole_transformation(num_particles=p)` from
`src/chemistry/ParticleHoleTransformation.ipynb`. -/
def phtAssign (p : ℕ) (s : PHState) : PHState :=
  let r := particle_hole_transformation s.ferOp p
  { s with newferOp := r.1, energy_shift := r.2 }

/-! ## Control flow of the notebooks

Each notebook is a linear sequence of library invocations with no `try`,
`except`, retry or recovery construct anywhere in its cells.  The sequence is
modelled as a list of named steps over an environment, where each library
call may fail (`Except`); `runSteps` executes them in order, recording the
names of the successfully completed steps, and stops at the first error. -/

/-- Modelled from the spec: the data produced by a chemistry driver run
(`PyQuanteDriver` / `PySCFDriver` of the external library), of which the
notebooks use the integral tensors, the Hartree-Fock energy and the nuclear
repulsion energy. -/
structure Molecule where
  one_body_integrals : List (List ℚ)
  two_body_integrals : List (List (List (List ℚ)))
  hf_energy : ℚ
  nuclear_repulsion_energy : ℚ

/-- Modelled from the spec: the behaviour of the external library operations
the notebooks invoke; each call either returns a value or raises, which the
`Except` result models. -/
structure Library where
  driverRun : Except String Molecule
  mappingCall : FermionicOperator → MapType → ℚ → Except String (List (String × ℚ))
  exactSolve : List (String × ℚ) → Except String ℚ
  vqeRun : List (String × ℚ) → Except String ℚ
  phtCall : FermionicOperator → ℕ → Except String (FermionicOperator × ℚ)

/-- Environment threaded through the notebook steps: the variables the cells
assign to. -/
structure Env where
  molecule : Molecule
  ferOp : FermionicOperator
  newferOp : FermionicOperator
  energy_shift : ℚ
  qubitOps : List (List (String × ℚ))
  energies : List ℚ

/-- The environment before the first cell runs: nothing assigned yet. -/
def initialEnv : Env :=
  { molecule := { one_body_integrals := [], two_body_integrals := []
                , hf_energy := 0, nuclear_repulsion_energy := 0 }
  , ferOp := { h1 := [], h2 := [] }
  , newferOp := { h1 := [], h2 := [] }
  , energy_shift := 0
  , qubitOps := []
  , energies := [] }

/-- A named notebook step: the name of the library call it performs and its
effect on the environment, fallible. -/
def NotebookStep : Type :=
  String × (Env → Except String Env)

/-- The `molecule = driver.run()` step of both notebooks. -/
def stepDriverRun (lib : Library) : NotebookStep :=
  ("driver.run", fun s => Except.map (fun m => { s with molecule := m }) lib.driverRun)

/-- The `ferOp = FermionicOperator(h1=..., h2=...)` step of both notebooks. -/
def stepBuildFerOp : NotebookStep :=
  ("FermionicOperator", fun s => Except.ok
    { s with ferOp := { h1 := s.molecule.one_body_integrals
                      , h2 := s.molecule.two_body_integrals } })

/-- A `ferOp.mapping(map_type=..., threshold=0.00000001)` step. -/
def stepMapping (lib : Library) (mt : MapType) (label : String) : NotebookStep :=
  (label, fun s => Except.map (fun q => { s with qubitOps := s.qubitOps ++ [q] })
    (lib.mappingCall s.ferOp mt 0.00000001))

/-- The `ExactEigensolver(...).run()` step, solving every qubit operator
bound so far (the loop of the printing cell of QubitMappings.ipynb, a single
operator in ParticleHoleTransformation.ipynb). -/
def stepExactLoop (lib : Library) : NotebookStep :=
  ("ExactEigensolver.run", fun s =>
    Except.map (fun es => { s with energies := s.energies ++ es })
      (s.qubitOps.mapM lib.exactSolve))

/-- The `vqe_algorithm.run(quantum_instance)` step over the bound qubit
operators. -/
def stepVQELoop (lib : Library) : NotebookStep :=
  ("VQE.run", fun s =>
    Except.map (fun es => { s with energies := s.energies ++ es })
      (s.qubitOps.mapM lib.vqeRun))

/-- The `newferOp, energy_shift =
ferOp.particle_hole_transformation(num_particles=2)` step of
ParticleHoleTransformation.ipynb. -/
def stepPht (lib : Library) : NotebookStep :=
  ("particle_hole_transformation", fun s =>
    Except.map (fun r => { s with newferOp := r.1, energy_shift := r.2 })
      (lib.phtCall s.ferOp 2))

/-- The `newqubitOp_jw = newferOp.mapping(map_type=JORDAN_WIGNER,
threshold=0.00000001)` step of ParticleHoleTransformation.ipynb. -/
def stepMappingNew (lib : Library) : NotebookStep :=
  ("newferOp.mapping JORDAN_WIGNER", fun s =>
    Except.map (fun q => { s with qubitOps := s.qubitOps ++ [q] })
      (lib.mappingCall s.newferOp MapType.jordanWigner 0.00000001))

/-- The step sequence of `src/chemistry/QubitMappings.ipynb`: driver run,
operator construction, three mappings, exact-eigensolver loop, VQE loop. -/
def qmSteps (lib : Library) : List NotebookStep :=
  [ stepDriverRun lib
  , stepBuildFerOp
  , stepMapping lib MapType.jordanWigner "mapping JORDAN_WIGNER"
  , stepMapping lib MapType.parity "mapping PARITY"
  , stepMapping lib MapType.bravyiKitaev "mapping BRAVYI_KITAEV"
  , stepExactLoop lib
  , stepVQELoop lib ]

/-- The step sequence of `src/chemistry/ParticleHoleTransformation.ipynb`:
driver run, operator construction, mapping, exact solve, particle-hole
transformation, mapping of the transformed operator, exact solve, VQE. -/
def phSteps (lib : Library) : List NotebookStep :=
  [ stepDriverRun lib
  , stepBuildFerOp
  , stepMapping lib MapType.jordanWigner "mapping JORDAN_WIGNER"
  , stepExactLoop lib
  , stepPht lib
  , stepMappingNew lib
  , stepExactLoop lib
  , stepVQELoop lib ]

/-- Run the steps in order with no handler: record the names of the
successfully completed steps and stop at the first raised error. -/
def runSteps : List NotebookStep → Env → List String × Except String Env
  | [], s => ([], Except.ok s)
  | st :: rest, s =>
    match st.2 s with
    | Except.error e => ([], Except.error e)
    | Except.ok s2 => ((st.1 :: (runSteps rest s2).1), (runSteps rest s2).2)

/-- A concrete library behaviour whose driver call raises, used to
instantiate the error-propagation theorem. -/
def libFail : Library :=
  { driverRun := Except.error "driver misconfiguration"
  , mappingCall := fun _ _ _ => Except.ok []
  , exactSolve := fun _ => Except.ok 0
  , vqeRun := fun _ => Except.ok 0
  , phtCall := fun f _ => Except.ok (f, 0) }

/-! ## The reporting statements after the VQE runs

The last cell of each notebook runs VQE and then prints; the model records,
for each `print` statement following a VQE run, which fields of the VQE
`results` dictionary its arguments reference. -/

/-- Fields of the VQE result dictionary referenced by the notebooks. -/
inductive ResultField where
  | eigvals
  | optParams
deriving DecidableEq

/-- The print statements that follow each `vqe_algorithm.run` in the VQE loop
of `src/chemistry/QubitMappings.ipynb`: a single print of the ground-state
energy, referencing `results` only at `eigvals`. -/
def qmVQEPrints : List (String × List ResultField) :=
  [ ("Ground state energy using", [ResultField.eigvals]) ]

/-- The print statements that follow `vqe_algorithm.run` in
`src/chemistry/ParticleHoleTransformation.ipynb`: two minimum-value prints
referencing `eigvals` and one parameters print referencing `opt_params`. -/
def phVQEPrints : List (String × List ResultField) :=
  [ ("Minimum value:", [ResultField.eigvals])
  , ("Minimum value:", [ResultField.eigvals])
  , ("Parameters:", [ResultField.optParams]) ]

/-- All result fields referenced by a list of print statements. -/
def printedFields (prints : List (String × List ResultField)) : List ResultField :=
  (prints.map Prod.snd).flatten

/-! ## Theorems -/

/-- C1: for H2 at bond length 0.735 Angstrom in the STO-3G basis (charge 0,
singlet), the ground-state energy computed by the exact eigensolver on the
mapped qubit operator is approximately -1.857275 hartree in both notebooks:
every recorded exact energy lies within `10 ^ -6` of that value. -/
theorem exact_energy_approx_minus_1_857275 :
    |QubitMappingsNB.jwExactEnergy - (-1.857275)| < 1/10^6 ∧
    |QubitMappingsNB.paExactEnergy - (-1.857275)| < 1/10^6 ∧
    |QubitMappingsNB.bkExactEnergy - (-1.857275)| < 1/10^6 ∧
    |ParticleHoleNB.exactEnergyBefore - (-1.857275)| < 1/10^6 := by
  refine ⟨?_, ?_, ?_, ?_⟩ <;>
    norm_num [QubitMappingsNB.jwExactEnergy, QubitMappingsNB.paExactEnergy,
      QubitMappingsNB.bkExactEnergy, ParticleHoleNB.exactEnergyBefore, abs_lt]

/-- C2 counterexample: the recorded exact ground-state energies of the
Jordan-Wigner and Bravyi-Kitaev mapped operators are not the same number
(they differ in the last floating-point digits), so the three mappings do
not produce literally identical smallest eigenvalues in the notebook. -/
theorem jw_bk_exact_energies_differ :
    QubitMappingsNB.jwExactEnergy ≠ QubitMappingsNB.bkExactEnergy := by
  norm_num [QubitMappingsNB.jwExactEnergy, QubitMappingsNB.bkExactEnergy]

/-- C2 amended: the exact ground-state energies computed on the
Jordan-Wigner, parity and Bravyi-Kitaev mapped operators agree up to
floating-point roundoff: each recorded pair differs by less than
`10 ^ -13` hartree. -/
theorem mapping_exact_energies_consistent :
    |QubitMappingsNB.jwExactEnergy - QubitMappingsNB.paExactEnergy| < 1/10^13 ∧
    |QubitMappingsNB.jwExactEnergy - QubitMappingsNB.bkExactEnergy| < 1/10^13 ∧
    |QubitMappingsNB.paExactEnergy - QubitMappingsNB.bkExactEnergy| < 1/10^13 := by
  refine ⟨?_, ?_, ?_⟩ <;>
    norm_num [QubitMappingsNB.jwExactEnergy, QubitMappingsNB.paExactEnergy,
      QubitMappingsNB.bkExactEnergy, abs_lt]

/-- C3 counterexample: in the recorded run of
`src/chemistry/ParticleHoleTransformation.ipynb`, `ret` at index `energy`
minus `energy_shift` after the particle-hole transformation is not exactly
equal to the exact ground-state energy computed before it: the two printed
values differ in the last floating-point digits. -/
theorem ph_shifted_energy_not_exactly_before :
    ParticleHoleNB.phExactEnergy - ParticleHoleNB.energyShift ≠
      ParticleHoleNB.exactEnergyBefore := by
  norm_num [ParticleHoleNB.phExactEnergy, ParticleHoleNB.energyShift,
    ParticleHoleNB.exactEnergyBefore]

/-- C3 amended: the smallest eigenvalue of the particle-hole transformed and
qubit-mapped operator minus the energy shift equals the smallest eigenvalue
of the untransformed operator up to floating-point roundoff: in the recorded
run the difference is below `2 * 10 ^ -15`, and the notebook prints exactly
that shifted value. -/
theorem ph_shifted_energy_matches_before :
    |ParticleHoleNB.phExactEnergy - ParticleHoleNB.energyShift -
      ParticleHoleNB.exactEnergyBefore| < 2/10^15 ∧
    |ParticleHoleNB.phExactEnergyShifted -
      (ParticleHoleNB.phExactEnergy - ParticleHoleNB.energyShift)| < 1/10^15 := by
  refine ⟨?_, ?_⟩ <;>
    norm_num [ParticleHoleNB.phExactEnergy, ParticleHoleNB.energyShift,
      ParticleHoleNB.exactEnergyBefore, ParticleHoleNB.phExactEnergyShifted, abs_lt]

/-- C9 counterexample: the recorded scalar `energy_shift` returned by
`particle_hole_transformation(num_particles=2)` is not exactly the negative
of the recorded Hartree-Fock electronic energy
`molecule.hf_energy - molecule.nuclear_repulsion_energy`: the two printed
values differ in the last floating-point digit. -/
theorem energy_shift_not_exactly_negative_hf :
    ParticleHoleNB.energyShift ≠ -ParticleHoleNB.hfElectronEnergy := by
  norm_num [ParticleHoleNB.energyShift, ParticleHoleNB.hfElectronEnergy]

/-- C9 amended: the scalar `energy_shift` equals the negative of the
Hartree-Fock electronic energy up to floating-point roundoff: the recorded
values differ by less than `10 ^ -15`, so adding back the shift recovers the
total electronic ground-state energy to the same accuracy. -/
theorem energy_shift_is_negative_hf_energy :
    |ParticleHoleNB.energyShift + ParticleHoleNB.hfElectronEnergy| < 1/10^15 := by
  norm_num [ParticleHoleNB.energyShift, ParticleHoleNB.hfElectronEnergy, abs_lt]

/-- C10: for every qubit operator on which the notebooks run VQE, the
recorded VQE energy estimate (RY variational form, L_BFGS_B optimizer,
statevector simulation) is greater than or equal to the recorded smallest
eigenvalue of the exact eigensolver on the same operator: the variational
result is an upper bound on the exact ground-state energy. -/
theorem vqe_energy_bounds_exact_energy :
    QubitMappingsNB.jwExactEnergy ≤ QubitMappingsNB.jwVQEEnergy ∧
    QubitMappingsNB.paExactEnergy ≤ QubitMappingsNB.paVQEEnergy ∧
    QubitMappingsNB.bkExactEnergy ≤ QubitMappingsNB.bkVQEEnergy ∧
    ParticleHoleNB.phExactEnergy ≤ ParticleHoleNB.phVQEEnergy := by
  refine ⟨?_, ?_, ?_, ?_⟩ <;>
    norm_num [QubitMappingsNB.jwExactEnergy, QubitMappingsNB.jwVQEEnergy,
      QubitMappingsNB.paExactEnergy, QubitMappingsNB.paVQEEnergy,
      QubitMappingsNB.bkExactEnergy, QubitMappingsNB.bkVQEEnergy,
      ParticleHoleNB.phExactEnergy, ParticleHoleNB.phVQEEnergy]

/-- C4 counterexample: after mapping with threshold `10 ^ -8` and applying
`chop(10 ** -10)`, the printed Jordan-Wigner qubit operator of
`src/chemistry/QubitMappings.ipynb` still contains the Pauli term `IZZZ`
whose coefficient has absolute value far below the cutoff: not every
negligible term has been dropped. -/
theorem chopped_operator_retains_negligible_term :
    ("IZZZ", (-8.326672684688674e-17 : ℚ)) ∈ QubitMappingsNB.jwTerms ∧
    |(-8.326672684688674e-17 : ℚ)| < 1/10^10 := by
  constructor
  · norm_num [QubitMappingsNB.jwTerms]
  · norm_num [abs_lt]

/-- C4 amended: terms below the `chop` cutoff may survive in the printed
qubit operators, but only as numerical noise: every Pauli term of the three
recorded operators either has a coefficient of absolute value at least the
mapping threshold `10 ^ -8`, or its coefficient is below `10 ^ -16` in
absolute value. -/
theorem chopped_terms_above_threshold_or_noise :
    ∀ t ∈ QubitMappingsNB.jwTerms ++ QubitMappingsNB.paTerms ++
      QubitMappingsNB.bkTerms,
      (1 : ℚ)/10^8 ≤ |t.2| ∨ |t.2| < 1/10^16 := by
  intro t ht
  fin_cases ht <;> norm_num [abs_lt, le_abs]

/-- C4 amended, witness: the theorem applied to the identity term of the
recorded Jordan-Wigner operator. -/
theorem chopped_terms_above_threshold_or_noise_witness :
    (1 : ℚ)/10^8 ≤ |((("IIII", (-0.8105479862760991 : ℚ))).2)| ∨
      |((("IIII", (-0.8105479862760991 : ℚ))).2)| < 1/10^16 :=
  chopped_terms_above_threshold_or_noise ("IIII", (-0.8105479862760991 : ℚ))
    (by norm_num [QubitMappingsNB.jwTerms, QubitMappingsNB.paTerms,
      QubitMappingsNB.bkTerms])

/-- C5: the qubit operator is a deterministic function of the fermionic
operator and the mapping choice: two invocations of `mapping` on the same
`FermionicOperator` with the same `map_type` and `threshold` produce the
same qubit operator, i.e. the same Pauli strings with the same
coefficients. -/
theorem mapping_deterministic (f1 f2 : FermionicOperator)
    (mt1 mt2 : MapType) (t1 t2 : ℚ)
    (hf : f1 = f2) (hm : mt1 = mt2) (ht : t1 = t2) :
    mapping f1 mt1 t1 = mapping f2 mt2 t2 := by
  subst hf; subst hm; subst ht; rfl

/-- C5 witness: two invocations of `mapping` on a concrete fermionic
operator with the Jordan-Wigner encoding and the threshold used in the
notebooks coincide. -/
theorem mapping_deterministic_witness :
    mapping sampleFerOp MapType.jordanWigner 0.00000001 =
      mapping sampleFerOp MapType.jordanWigner 0.00000001 :=
  mapping_deterministic sampleFerOp sampleFerOp MapType.jordanWigner
    MapType.jordanWigner 0.00000001 0.00000001 rfl rfl rfl

/-- C6: a `FermionicOperator` is immutable once built: each of the three
mapping assignments of `src/chemistry/QubitMappings.ipynb` leaves `ferOp`
unchanged in the store; the particle-hole assignment of
`src/chemistry/ParticleHoleTransformation.ipynb` leaves its receiver
unchanged and binds the new operator and scalar shift returned by
`particle_hole_transformation`; and the three mapping assignments commute,
so running them in any order yields the same store. -/
theorem fermionic_operator_immutable :
    ∀ (s : NotebookState) (t : PHState) (p : ℕ),
      (assignJW s).ferOp = s.ferOp ∧
      (assignPA s).ferOp = s.ferOp ∧
      (assignBK s).ferOp = s.ferOp ∧
      (phtAssign p t).ferOp = t.ferOp ∧
      (phtAssign p t).newferOp = (particle_hole_transformation t.ferOp p).1 ∧
      (phtAssign p t).energy_shift = (particle_hole_transformation t.ferOp p).2 ∧
      assignPA (assignJW s) = assignJW (assignPA s) ∧
      assignBK (assignJW s) = assignJW (assignBK s) ∧
      assignBK (assignPA s) = assignPA (assignBK s) := by
  intro s t p
  exact ⟨rfl, rfl, rfl, rfl, rfl, rfl, rfl, rfl, rfl⟩

/-- C8 counterexample: the reporting after the VQE runs of
`src/chemistry/QubitMappings.ipynb` never references the optimized
parameters of the variational form: no print statement of its VQE loop
mentions `opt_params`. -/
theorem qm_vqe_report_omits_parameters :
    ResultField.optParams ∉ printedFields qmVQEPrints := by
  decide

/-- C8 amended: after the VQE run of
`src/chemistry/ParticleHoleTransformation.ipynb` the reporting prints both
the computed minimum energy and the optimized parameter vector, while the
VQE loop of `src/chemistry/QubitMappings.ipynb` prints only the computed
energy and not the optimized parameters. -/
theorem vqe_reporting_fields :
    ResultField.eigvals ∈ printedFields phVQEPrints ∧
    ResultField.optParams ∈ printedFields phVQEPrints ∧
    ResultField.eigvals ∈ printedFields qmVQEPrints ∧
    ResultField.optParams ∉ printedFields qmVQEPrints := by
  decide

/-- Running the empty step list executes nothing and succeeds. -/
theorem runSteps_nil (s : Env) : runSteps [] s = ([], Except.ok s) := rfl

/-- Unfolding lemma for `runSteps` on a nonempty step list. -/
theorem runSteps_cons (st : NotebookStep) (rest : List NotebookStep) (s : Env) :
    runSteps (st :: rest) s =
      match st.2 s with
      | Except.error e => ([], Except.error e)
      | Except.ok s2 => ((st.1 :: (runSteps rest s2).1), (runSteps rest s2).2) := rfl

/-- If the steps before `st` complete successfully and `st` raises, then the
whole handler-free sequence stops at `st`: the raised error is the final
result and only the steps before `st` appear in the executed-step trace. -/
theorem runSteps_append_error (post : List NotebookStep) (st : NotebookStep)
    (s2 : Env) (e : String) (hst : st.2 s2 = Except.error e) :
    ∀ (pre : List NotebookStep) (s : Env) (ns : List String),
      runSteps pre s = (ns, Except.ok s2) →
      runSteps (pre ++ st :: post) s = (ns, Except.error e) := by
  intro pre
  induction pre with
  | nil =>
    intro s ns hpre
    rw [runSteps_nil] at hpre
    injection hpre with h1 h2
    injection h2 with h3
    subst h3
    subst h1
    rw [List.nil_append, runSteps_cons, hst]
  | cons hd tl ih =>
    intro s ns hpre
    rw [runSteps_cons] at hpre
    split at hpre
    · exact absurd hpre (by simp)
    · next s1 heq =>
      injection hpre with h1 h2
      have hx : runSteps tl s1 = ((runSteps tl s1).1, Except.ok s2) := by
        rw [← h2]
      have hres := ih s1 (runSteps tl s1).1 hx
      rw [List.cons_append, runSteps_cons, heq]
      show (hd.1 :: (runSteps (tl ++ st :: post) s1).1,
        (runSteps (tl ++ st :: post) s1).2) = (ns, Except.error e)
      rw [hres, ← h1]

/-- C7: the notebooks contain no error handling of their own: in both step
sequences, whenever some invoked library operation raises (step `st`, after
the steps of `pre` completed successfully), the raised exception propagates
unhandled to the top level of the run and the steps after `st` do not
execute: the trace of executed steps consists of the `pre` steps only. -/
theorem notebooks_propagate_exceptions (lib : Library)
    (pre post : List NotebookStep) (st : NotebookStep) (s2 : Env)
    (ns : List String) (e : String) :
    (qmSteps lib = pre ++ st :: post →
      runSteps pre initialEnv = (ns, Except.ok s2) →
      st.2 s2 = Except.error e →
      runSteps (qmSteps lib) initialEnv = (ns, Except.error e)) ∧
    (phSteps lib = pre ++ st :: post →
      runSteps pre initialEnv = (ns, Except.ok s2) →
      st.2 s2 = Except.error e →
      runSteps (phSteps lib) initialEnv = (ns, Except.error e)) := by
  constructor <;> intro hdec hpre hst <;> rw [hdec] <;>
    exact runSteps_append_error post st s2 e hst pre initialEnv ns hpre

/-- C7 witness: with a library whose driver call raises, both notebook runs
end in that error with no step completed. -/
theorem notebooks_propagate_exceptions_witness :
    runSteps (qmSteps libFail) initialEnv =
      ([], Except.error "driver misconfiguration") ∧
    runSteps (phSteps libFail) initialEnv =
      ([], Except.error "driver misconfiguration") :=
  ⟨(notebooks_propagate_exceptions libFail []
      [ stepBuildFerOp
      , stepMapping libFail MapType.jordanWigner "mapping JORDAN_WIGNER"
      , stepMapping libFail MapType.parity "mapping PARITY"
      , stepMapping libFail MapType.bravyiKitaev "mapping BRAVYI_KITAEV"
      , stepExactLoop libFail
      , stepVQELoop libFail ]
      (stepDriverRun libFail) initialEnv [] "driver misconfiguration").1
      rfl rfl rfl,
   (notebooks_propagate_exceptions libFail []
      [ stepBuildFerOp
      , stepMapping libFail MapType.jordanWigner "mapping JORDAN_WIGNER"
      , stepExactLoop libFail
      , stepPht libFail
      , stepMappingNew libFail
      , stepExactLoop libFail
      , stepVQELoop libFail ]
      (stepDriverRun libFail) initialEnv [] "driver misconfiguration").2
      rfl rfl rfl⟩
